import Mathlib

/-!
Verification of the video-editor backend (`src/backend/server.py`).

The development shallowly embeds the export pipeline of the server:
the timeline data model (`VideoEffect`, `TextOverlay`), the filter-graph
compiler inside `process_video_export` (effect stages, overlay stages,
label generation, the final-entry rewrite, the assembled ffmpeg command),
and the filesystem-observing endpoints `get_export_status`,
`download_export` and `export_project`.

Python floats are embedded as the fraction type `PyF` (exact rational
values; every operation is structural so that the kernel can evaluate it).
Python `float(...)` string conversion is embedded by `pyFloat?`, which
accepts an optionally signed decimal literal with optional fraction and
exponent part surrounded by whitespace, exactly the forms the claims
exercise (`inf`/`nan`/underscore literals are not modelled).  `str.strip`
is embedded by `pyStrip`, single-character `str.replace` by
`pyReplaceChar`, and Python's decimal formatting of the float values the
claims touch by `PyF.toStr` (exact for terminating decimal expansions).
-/

/-- The decimal digit character for `d ≤ 9` (ASCII `48 + d`). -/
def digitChar (d : Nat) : Char := Char.ofNat (48 + d)

/-- Numeric value of a decimal digit character. -/
def decDigit (c : Char) : Nat := c.toNat - 48

/-- Value of a big-endian list of decimal digit characters. -/
def decVal (l : List Char) : Nat := l.foldl (fun a c => 10 * a + decDigit c) 0

/-- Fuel-driven decimal rendering of a natural number (digits of `n`). -/
def natToDecCore : Nat → Nat → List Char
  | 0, _ => []
  | fuel + 1, n =>
    if n < 10 then [digitChar n]
    else natToDecCore fuel (n / 10) ++ [digitChar (n % 10)]

/-- Decimal rendering of a natural number, as Python formats an `int`. -/
def natToDec (n : Nat) : String := String.mk (natToDecCore (n + 1) n)

/-- An exact fraction embedding a Python float value.  Values produced by
the embedded code always have a nonzero denominator. -/
structure PyF where
  num : Int
  den : Int
deriving DecidableEq

/-- The float `1.0`. -/
def pyFOne : PyF := ⟨1, 1⟩

/-- The float `0.0`. -/
def pyFZero : PyF := ⟨0, 1⟩

/-- Python float equality `a == b` on the embedded fractions
(cross multiplication, so unreduced representations compare equal). -/
def PyF.eqv (a b : PyF) : Bool := a.num * b.den == b.num * a.den

/-- Python float division `a / b` (the caller guards against `b == 0`,
as the source raises `ZeroDivisionError` there). -/
def PyF.div (a b : PyF) : PyF := ⟨a.num * b.den, a.den * b.num⟩

/-- Fractional decimal digits of `rem / d`, at most `fuel` digits. -/
def fracDigitsCore : Nat → Nat → Nat → List Char
  | 0, _, _ => []
  | _ + 1, 0, _ => []
  | fuel + 1, rem, d => digitChar (rem * 10 / d) :: fracDigitsCore fuel (rem * 10 % d) d

/-- Python's decimal formatting of a float value (as used by f-strings):
sign, integer part, a decimal point, and the fractional digits (at least
one, so `10` renders as `"10.0"`).  Exact for values whose decimal
expansion terminates, which covers every value the claims evaluate. -/
def PyF.toStr (q : PyF) : String :=
  let n := q.num.natAbs
  let d := q.den.natAbs
  let neg : Bool := decide (q.num * q.den < 0)
  let fr := fracDigitsCore 32 (n % d) d
  (if neg then "-" else "") ++ natToDec (n / d) ++ "." ++
    (if fr.isEmpty then "0" else String.mk fr)

/-- Python `str.strip()`: drop leading and trailing whitespace. -/
def pyStrip (s : String) : String :=
  String.mk (((s.data.dropWhile Char.isWhitespace).reverse.dropWhile Char.isWhitespace).reverse)

/-- Split a character list at the first exponent marker `e`/`E`. -/
def splitAtExp : List Char → List Char × Option (List Char)
  | [] => ([], none)
  | c :: r =>
    if c = 'e' ∨ c = 'E' then ([], some r)
    else
      let p := splitAtExp r
      (c :: p.1, p.2)

/-- Read an optional leading sign, returning the sign and the rest. -/
def readSign : List Char → Int × List Char
  | [] => (1, [])
  | c :: r => if c = '-' then (-1, r) else if c = '+' then (1, r) else (1, c :: r)

/-- Read a decimal mantissa `digits[.digits]`, returning the digit value
and the number of fractional digits. -/
def readMantissa (m : List Char) : Option (Nat × Nat) :=
  let ip := m.takeWhile Char.isDigit
  let rest := m.drop ip.length
  match rest with
  | [] => if ip.isEmpty then none else some (decVal ip, 0)
  | c :: fr =>
    if c = '.' ∧ fr.all Char.isDigit ∧ ¬ (ip.isEmpty ∧ fr.isEmpty) then
      some (decVal (ip ++ fr), fr.length)
    else none

/-- Read an exponent part (after `e`), a signed digit string. -/
def readExp : Option (List Char) → Option Int
  | none => some 0
  | some l =>
    let p := readSign l
    if p.2.isEmpty ∨ ¬ p.2.all Char.isDigit then none
    else some (p.1 * (decVal p.2 : Int))

/-- Python `float(s)` on a string: optionally signed decimal literal with
optional fractional and exponent part, surrounded by whitespace.
Returns `none` where the source raises `ValueError`. -/
def pyFloat? (s : String) : Option PyF :=
  let t := (pyStrip s).data
  let sp := readSign t
  let me := splitAtExp sp.2
  match readMantissa me.1, readExp me.2 with
  | some mv, some ex =>
    if 0 ≤ ex then
      some ⟨sp.1 * (mv.1 : Int) * (10 : Int) ^ ex.toNat, (10 : Int) ^ mv.2⟩
    else
      some ⟨sp.1 * (mv.1 : Int), (10 : Int) ^ mv.2 * (10 : Int) ^ (-ex).toNat⟩
  | _, _ => none

/-- `VideoEffect.value` is a JSON `Union[str, float]`. -/
inductive EValue where
  | vstr (s : String)
  | vnum (q : PyF)
deriving DecidableEq

/-- Python `float(effect_value)`: a float passes through, a string is
converted by `pyFloat?`; `none` embeds a raised `ValueError`. -/
def floatOfValue : EValue → Option PyF
  | .vstr s => pyFloat? s
  | .vnum q => some q

/-- The fields of a `VideoEffect` record consulted by the compiler
(`effect.get("type")`, `effect.get("value")`). -/
structure VideoEffect where
  type : String
  value : EValue
deriving DecidableEq

/-- The fields of a `TextOverlay` record consulted by the compiler. -/
structure TextOverlay where
  text : String
  x : PyF
  y : PyF
  font_size : Int
  color : String
  start_time : PyF
  end_time : PyF
deriving DecidableEq

/-- The static `effect_mapping` dict of `process_video_export`. -/
def effect_mapping : List (String × String) :=
  [("grayscale", "colorchannelmixer=.3:.4:.3:0:.3:.4:.3:0:.3:.4:.3"),
   ("sepia", "colorchannelmixer=.393:.769:.189:0:.349:.686:.168:0:.272:.534:.131"),
   ("blur", "boxblur=5:1"),
   ("sharpen", "unsharp=5:5:1.5:5:5:0.0"),
   ("contrast", "eq=contrast=1.5"),
   ("vintage", "curves=vintage,vignette"),
   ("vignette", "vignette=PI/4"),
   ("saturate", "eq=saturation=1.5")]

/-- `effect_value in effect_mapping` followed by `effect_mapping[effect_value]`:
a float value is never a key of the dict. -/
def lookupFilter : EValue → Option String
  | .vstr s => effect_mapping.lookup s
  | .vnum _ => none

/-- The static `quality_settings` dict, already split into argument lists,
with the `.get(..., quality_settings["medium"])` default. -/
def qualityArgs (q : String) : List String :=
  if q = "low" then ["-crf", "28", "-preset", "ultrafast"]
  else if q = "high" then ["-crf", "18", "-preset", "slow"]
  else ["-crf", "23", "-preset", "medium"]

/-- One `filter_complex` entry: input label, filter body, output label.
The source appends the concatenation `stageStr` to its `filter_complex` list. -/
structure Stage where
  inLabel : String
  body : String
  outLabel : String
deriving DecidableEq

/-- The f-string `f"[v{i}]"`. -/
def labelOf (i : Nat) : String := "[v" ++ natToDec i ++ "]"

/-- A single-quote character, written by code point to keep source plain. -/
def quoteChar : Char := Char.ofNat 39

/-- The single-quote as a one-character string. -/
def quoteStr : String := String.mk [quoteChar]

/-- Python `s.replace(c, r)` for a single-character pattern `c`. -/
def pyReplaceChar (c : Char) (r : List Char) : List Char → List Char
  | [] => []
  | d :: ds => (if d = c then r else [d]) ++ pyReplaceChar c r ds

/-- The source's overlay-text escaping:
`overlay.get("text").replace(":", "\\:").replace("'", "\\'")`. -/
def escapeText (s : String) : String :=
  String.mk (pyReplaceChar quoteChar ['\\', quoteChar] (pyReplaceChar ':' ['\\', ':'] s.data))

/-- The escaping the specification describes: each `:` becomes `\:`, each
single quote becomes `\'`, characterwise in one pass. -/
def specEscape (s : String) : String :=
  String.mk (s.data.flatMap fun d =>
    if d = ':' then ['\\', ':']
    else if d = quoteChar then ['\\', quoteChar]
    else [d])

/-- The drawtext filter string the source formats for one overlay. -/
def textFilterOf (o : TextOverlay) : String :=
  "drawtext=text=" ++ quoteStr ++ escapeText o.text ++ quoteStr ++
    ":x=" ++ o.x.toStr ++ "*W/100:y=" ++ o.y.toStr ++ "*W/100:fontsize=" ++
    toString o.font_size ++ ":fontcolor=" ++ o.color ++
    ":enable=" ++ quoteStr ++ "between(t," ++ o.start_time.toStr ++ "," ++ o.end_time.toStr ++ ")" ++ quoteStr

/-- One iteration of the effects loop of `process_video_export`: given the
loop index `i` and the current input label, produce the emitted stage (if
any) and the next current label.  `Except.error` embeds a raised
exception (`ValueError` from `float`, `ZeroDivisionError` from `1.0/speed`). -/
def procEffect (i : Nat) (cur : String) (e : VideoEffect) : Except String (Option Stage × String) :=
  if e.type = "filter" then
    match lookupFilter e.value with
    | some fs => Except.ok (some ⟨cur, fs, labelOf i⟩, labelOf i)
    | none => Except.ok (none, cur)
  else if e.type = "speed" then
    match floatOfValue e.value with
    | none => Except.error "could not convert string to float"
    | some speed =>
      if PyF.eqv speed pyFOne then Except.ok (none, cur)
      else if PyF.eqv speed pyFZero then Except.error "float division by zero"
      else
        Except.ok (some ⟨cur, "setpts=" ++ (PyF.div pyFOne speed).toStr ++ "*PTS", labelOf i⟩,
          labelOf i)
  else Except.ok (none, cur)

/-- The effects loop, starting at loop index `i` with current label `cur`:
returns the emitted stages and the final current label. -/
def compileEffects : Nat → String → List VideoEffect → Except String (List Stage × String)
  | _, cur, [] => Except.ok ([], cur)
  | i, cur, e :: es =>
    match procEffect i cur e with
    | Except.error m => Except.error m
    | Except.ok (st?, cur2) =>
      match compileEffects (i + 1) cur2 es with
      | Except.error m => Except.error m
      | Except.ok (sts, curF) => Except.ok (st?.toList ++ sts, curF)

/-- The overlays loop: every overlay emits one drawtext stage, with output
label `[v{i + len(effects)}]` for loop index `i`. -/
def compileOverlays (nEff : Nat) : Nat → String → List TextOverlay → List Stage × String
  | _, cur, [] => ([], cur)
  | i, cur, o :: os =>
    let st : Stage := ⟨cur, textFilterOf o, labelOf (i + nEff)⟩
    let p := compileOverlays nEff (i + 1) st.outLabel os
    (st :: p.1, p.2)

/-- All stages of the compiled filter graph (effects, then overlays). -/
def compileStages (es : List VideoEffect) (os : List TextOverlay) : Except String (List Stage) :=
  match compileEffects 0 "[0:v]" es with
  | Except.error m => Except.error m
  | Except.ok (effSts, cur) => Except.ok (effSts ++ (compileOverlays es.length 0 cur os).1)

/-- The string appended to `filter_complex` for one stage. -/
def stageStr (s : Stage) : String := s.inLabel ++ s.body ++ s.outLabel

/-- Python `s.split("]")[0]`: everything before the first `]`. -/
def pySplitRBHead (s : String) : String := String.mk (s.data.takeWhile fun c => c ≠ ']')

/-- The final-output rewrite
`filter_complex[-1] = filter_complex[-1].split("]")[0] + "]"`
applied to the last entry of a nonempty list. -/
def finalizeEntries : List String → List String
  | [] => []
  | [e] => [pySplitRBHead e ++ "]"]
  | e :: e2 :: es => e :: finalizeEntries (e2 :: es)

/-- The `filter_complex` entry list of a compilation, after the
final-output rewrite. -/
def compileEntries (es : List VideoEffect) (os : List TextOverlay) : Except String (List String) :=
  match compileStages es os with
  | Except.error m => Except.error m
  | Except.ok sts => Except.ok (finalizeEntries (sts.map stageStr))

/-- The full ffmpeg argument list assembled by `process_video_export`. -/
def compileExportCmd (sourcePath destPath quality format : String)
    (es : List VideoEffect) (os : List TextOverlay) : Except String (List String) :=
  match compileEntries es os with
  | Except.error m => Except.error m
  | Except.ok entries =>
    Except.ok (["ffmpeg", "-y", "-i", sourcePath] ++
      (if entries.isEmpty then [] else ["-filter_complex", String.intercalate ";" entries]) ++
      qualityArgs quality ++ ["-f", format] ++ [destPath])

/-- Whether an `Except` computation raised. -/
def isErr : Except String α → Bool
  | Except.error _ => true
  | Except.ok _ => false

/-- The exact condition under which one iteration of the effects loop
raises: the effect is speed-kind and `float(value)` fails (`ValueError`),
or the converted speed passes the `!= 1.0` guard but is zero
(`ZeroDivisionError` in `1.0 / speed`).  For genuine float values a zero
never compares equal to `1.0`, so the middle conjunct is redundant there. -/
def speedAborts (e : VideoEffect) : Bool :=
  e.type == "speed" &&
    (match floatOfValue e.value with
     | none => true
     | some q => !(PyF.eqv q pyFOne) && PyF.eqv q pyFZero)

/-- Decidable equality for `Except` results, so that concrete runs of the
embedded endpoints can be settled by `decide`. -/
instance {ε α : Type} [DecidableEq ε] [DecidableEq α] : DecidableEq (Except ε α)
  | Except.error a, Except.error b =>
    if h : a = b then isTrue (by rw [h]) else isFalse fun he => h (Except.error.inj he)
  | Except.error _, Except.ok _ => isFalse fun he => Except.noConfusion he
  | Except.ok _, Except.error _ => isFalse fun he => Except.noConfusion he
  | Except.ok a, Except.ok b =>
    if h : a = b then isTrue (by rw [h]) else isFalse fun he => h (Except.ok.inj he)

/-- The observable filesystem state of one export: the file names present
in the exports directory and the `(name, content)` pairs present in the
temp directory. -/
structure FS where
  exportsFiles : List String
  progressFiles : List (String × String)
deriving DecidableEq

/-- The three response shapes of `GET /api/exports/{id}/status`. -/
inductive StatusR where
  | completed (download_url : String)
  | processing (progress : String)
  | not_found
deriving DecidableEq

/-- `get_export_status`: probes `EXPORTS_DIR/{id}.mp4`, then reads the
stripped progress marker, else reports `not_found`. -/
def get_export_status (fs : FS) (export_id : String) : StatusR :=
  if (export_id ++ ".mp4") ∈ fs.exportsFiles then
    StatusR.completed ("/api/exports/" ++ export_id ++ "/download")
  else
    match fs.progressFiles.lookup (export_id ++ "_progress.txt") with
    | some p => StatusR.processing (pyStrip p)
    | none => StatusR.not_found

/-- The extension-probing loop of `download_export`. -/
def findExport (fs : FS) (export_id : String) : List String → Option String
  | [] => none
  | e :: es =>
    if (export_id ++ "." ++ e) ∈ fs.exportsFiles then some e
    else findExport fs export_id es

/-- `download_export`: returns `(path, filename, media_type)` for the
first of `mp4`, `webm`, `mov` whose artifact exists, else a 404. -/
def download_export (fs : FS) (export_id : String) :
    Except (Nat × String) (String × String × String) :=
  match findExport fs export_id ["mp4", "webm", "mov"] with
  | some e =>
    Except.ok (export_id ++ "." ++ e, "export_" ++ export_id ++ "." ++ e, "video/" ++ e)
  | none => Except.error (404, "Export not found")

/-- The body of an `ExportRequest`. -/
structure ExportRequest where
  quality : String
  format : String
  segments_only : Bool
deriving DecidableEq

/-- The project fields consulted by `export_project`. -/
structure ProjectR where
  video_file : String
deriving DecidableEq

/-- The JSON body returned by a successful `export_project` call. -/
structure ExportResp where
  message : String
  export_id : String
  status : String
  download_url : String
deriving DecidableEq

/-- The arguments `export_project` hands to the scheduled background
render task (`background_tasks.add_task(process_video_export, ...)`). -/
structure BackgroundTask where
  project_id : String
  source_file : String
  export_filename : String
  request : ExportRequest
deriving DecidableEq

/-- `export_project`: look up the project, fix the export id and
destination name, check the source upload, and schedule the background
render.  The freshly drawn uuid is passed in as `export_id`; an
`Except.error` embeds a raised `HTTPException` (status code, detail), in
which case no response is returned and no task is scheduled. -/
def export_project (db : List (String × ProjectR)) (uploads : List String)
    (project_id : String) (req : ExportRequest) (export_id : String) :
    Except (Nat × String) (ExportResp × BackgroundTask) :=
  match db.lookup project_id with
  | none => Except.error (404, "Project not found")
  | some p =>
    if p.video_file = "" then Except.error (400, "No video file associated with this project")
    else if p.video_file ∈ uploads then
      Except.ok
        ({ message := "Export started", export_id := export_id, status := "processing",
           download_url := "/api/exports/" ++ export_id ++ "/download" },
         { project_id := project_id, source_file := p.video_file,
           export_filename := export_id ++ "." ++ req.format, request := req })
    else Except.error (404, "Video file not found")

/-- The filesystem after a successful render of export `id` in container
format `fmt`: the artifact was written by ffmpeg and the progress marker
was unlinked by the `returncode == 0` branch of `process_video_export`. -/
def successFS (id fmt : String) : FS := ⟨[id ++ "." ++ fmt], []⟩

/-- The sequence of filesystem states a job passes through when its
renderer succeeds, following `process_video_export` in order: no files
yet, marker `0%`, marker `Starting export...`, marker `Processing...`,
artifact present with marker `100%`, marker unlinked. -/
def traceSuccess (id fmt : String) : List FS :=
  [⟨[], []⟩,
   ⟨[], [(id ++ "_progress.txt", "0%")]⟩,
   ⟨[], [(id ++ "_progress.txt", "Starting export...")]⟩,
   ⟨[], [(id ++ "_progress.txt", "Processing...")]⟩,
   ⟨[id ++ "." ++ fmt], [(id ++ "_progress.txt", "100%")]⟩,
   ⟨[id ++ "." ++ fmt], []⟩]

/-- The filesystem states of a job whose renderer exits nonzero: no
artifact appears and the marker ends holding the error text. -/
def traceFailure (id err : String) : List FS :=
  [⟨[], []⟩,
   ⟨[], [(id ++ "_progress.txt", "0%")]⟩,
   ⟨[], [(id ++ "_progress.txt", "Starting export...")]⟩,
   ⟨[], [(id ++ "_progress.txt", "Processing...")]⟩,
   ⟨[], [(id ++ "_progress.txt", "Error: " ++ err)]⟩]

/-- The statuses a poller observes along a sequence of filesystem states. -/
def statusTrace (t : List FS) (id : String) : List StatusR :=
  t.map fun fs => get_export_status fs id

/-- Rank of a status in the job's forward direction. -/
def statusRank : StatusR → Nat
  | StatusR.not_found => 0
  | StatusR.processing _ => 1
  | StatusR.completed _ => 2

/-- A status sequence is monotone when later observations never rank
below earlier ones. -/
abbrev MonotoneSt (ss : List StatusR) : Prop :=
  List.Pairwise (fun a b => statusRank a ≤ statusRank b) ss

/-- The stage list of a compilation that succeeded (used to state closed
witnesses). -/
def okStages (r : Except String (List Stage)) : List Stage :=
  match r with
  | Except.ok sts => sts
  | Except.error _ => []

/-! ### Decimal-label infrastructure -/

theorem decDigit_digitChar : ∀ d < 10, decDigit (digitChar d) = d := by decide

theorem decVal_append_digit (l : List Char) (c : Char) :
    decVal (l ++ [c]) = 10 * decVal l + decDigit c := by
  simp [decVal, List.foldl_append]

theorem decVal_natToDecCore : ∀ fuel n, n < fuel → decVal (natToDecCore fuel n) = n := by
  intro fuel
  induction fuel with
  | zero => omega
  | succ f ih =>
    intro n h
    by_cases h10 : n < 10
    · simpa [natToDecCore, h10, decVal] using decDigit_digitChar n h10
    · have hdiv : n / 10 < f := by
        have h1 : n / 10 < n := Nat.div_lt_self (by omega) (by omega)
        omega
      rw [natToDecCore]
      simp only [h10, if_false]
      rw [decVal_append_digit, ih _ hdiv, decDigit_digitChar (n % 10) (by omega)]
      omega

theorem natToDec_inj {n m : Nat} (h : natToDec n = natToDec m) : n = m := by
  have h2 := congrArg (fun s : String => decVal s.data) h
  simpa [natToDec, decVal_natToDecCore (n + 1) n (by omega),
    decVal_natToDecCore (m + 1) m (by omega)] using h2

theorem str_append_left_cancel {a b c : String} (h : a ++ b = a ++ c) : b = c := by
  have h2 := congrArg String.data h
  rw [String.data_append, String.data_append] at h2
  exact String.ext (List.append_cancel_left h2)

theorem str_append_right_cancel {a b c : String} (h : a ++ c = b ++ c) : a = b := by
  have h2 := congrArg String.data h
  rw [String.data_append, String.data_append] at h2
  exact String.ext (List.append_cancel_right h2)

theorem labelOf_inj {n m : Nat} (h : labelOf n = labelOf m) : n = m := by
  unfold labelOf at h
  exact natToDec_inj (str_append_left_cancel (str_append_right_cancel h))

/-! ### Escaping -/

theorem pyReplaceChar_append (c : Char) (r : List Char) (xs ys : List Char) :
    pyReplaceChar c r (xs ++ ys) = pyReplaceChar c r xs ++ pyReplaceChar c r ys := by
  induction xs with
  | nil => rfl
  | cons d ds ih => simp [pyReplaceChar, ih]

theorem escape_chain_eq_single_pass (l : List Char) :
    pyReplaceChar quoteChar ['\\', quoteChar] (pyReplaceChar ':' ['\\', ':'] l) =
      l.flatMap fun d =>
        if d = ':' then ['\\', ':']
        else if d = quoteChar then ['\\', quoteChar]
        else [d] := by
  induction l with
  | nil => rfl
  | cons d ds ih =>
    have hstep : pyReplaceChar ':' ['\\', ':'] (d :: ds) =
        (if d = ':' then ['\\', ':'] else [d]) ++ pyReplaceChar ':' ['\\', ':'] ds := rfl
    rw [hstep, pyReplaceChar_append, ih, List.flatMap_cons]
    congr 1
    by_cases hc : d = ':'
    · rw [if_pos hc, if_pos hc]; decide
    · rw [if_neg hc, if_neg hc]
      by_cases hq : d = quoteChar
      · subst hq; rw [if_pos rfl]; decide
      · rw [if_neg hq]; simp [pyReplaceChar, hq]

theorem escapeText_eq_specEscape (s : String) : escapeText s = specEscape s :=
  congrArg String.mk (escape_chain_eq_single_pass s.data)

/-! ### Compiler loop lemmas -/

theorem procEffect_ok_some {i : Nat} {cur : String} {e : VideoEffect} {st : Stage} {c2 : String}
    (h : procEffect i cur e = Except.ok (some st, c2)) :
    st.outLabel = labelOf i ∧ c2 = labelOf i := by
  unfold procEffect at h
  split at h
  · split at h <;> simp_all <;> rw [← h.1, ← h.2]
  · split at h
    · split at h <;> simp_all
      split at h <;> simp_all
      split at h <;> simp_all <;> rw [← h.1, ← h.2]
    · simp_all

theorem procEffect_ok_none {i : Nat} {cur : String} {e : VideoEffect} {c2 : String}
    (h : procEffect i cur e = Except.ok (none, c2)) : c2 = cur := by
  unfold procEffect at h
  split at h
  · split at h <;> simp_all
  · split at h
    · split at h <;> simp_all
      split at h <;> simp_all
      split at h <;> simp_all
    · simp_all

/-- Skipping behaviour of the effects loop on a filter effect whose value
is not a key of the catalog. -/
theorem procEffect_unknown_filter {i : Nat} {cur : String} {e : VideoEffect}
    (h1 : e.type = "filter") (h2 : lookupFilter e.value = none) :
    procEffect i cur e = Except.ok (none, cur) := by
  simp [procEffect, h1, h2]

theorem compileEffects_cons (i : Nat) (cur : String) (e : VideoEffect) (es : List VideoEffect) :
    compileEffects i cur (e :: es) =
      match procEffect i cur e with
      | Except.error m => Except.error m
      | Except.ok (st?, cur2) =>
        match compileEffects (i + 1) cur2 es with
        | Except.error m => Except.error m
        | Except.ok (sts, curF) => Except.ok (st?.toList ++ sts, curF) := rfl

theorem compileEffects_labels :
    ∀ (es : List VideoEffect) (i : Nat) (cur : String) (sts : List Stage) (c : String),
      compileEffects i cur es = Except.ok (sts, c) →
      (∀ st ∈ sts, ∃ k, i ≤ k ∧ k < i + es.length ∧ st.outLabel = labelOf k) ∧
      List.Pairwise (fun a b : Stage => a.outLabel ≠ b.outLabel) sts := by
  intro es
  induction es with
  | nil =>
    intro i cur sts c h
    unfold compileEffects at h
    obtain ⟨h1, h2⟩ := Prod.mk.injEq .. ▸ Except.ok.inj h
    subst h1
    simp
  | cons e es ih =>
    intro i cur sts c h
    rw [compileEffects_cons] at h
    cases hp : procEffect i cur e with
    | error m => simp only [hp] at h; cases h
    | ok pr =>
      obtain ⟨st?, cur2⟩ := pr
      simp only [hp] at h
      cases hr : compileEffects (i + 1) cur2 es with
      | error m => simp only [hr] at h; cases h
      | ok pr2 =>
        obtain ⟨sts2, c2⟩ := pr2
        simp only [hr, Except.ok.injEq, Prod.mk.injEq] at h
        obtain ⟨h1, h2⟩ := h
        subst h1
        obtain ⟨ihB, ihP⟩ := ih (i + 1) cur2 sts2 c2 hr
        cases st? with
        | none =>
          refine ⟨?_, ihP⟩
          intro st hmem
          simp only [Option.toList_none, List.nil_append] at hmem
          obtain ⟨k, hk1, hk2, hk3⟩ := ihB st hmem
          exact ⟨k, by omega, by simp only [List.length_cons]; omega, hk3⟩
        | some st0 =>
          have hout := (procEffect_ok_some hp).1
          simp only [Option.toList_some, List.singleton_append]
          constructor
          · intro st hmem
            rcases List.mem_cons.mp hmem with hEq | hIn
            · subst hEq
              exact ⟨i, le_refl i, by simp only [List.length_cons]; omega, hout⟩
            · obtain ⟨k, hk1, hk2, hk3⟩ := ihB st hIn
              exact ⟨k, by omega, by simp only [List.length_cons]; omega, hk3⟩
          · refine List.Pairwise.cons ?_ ihP
            intro b hb hEqLab
            obtain ⟨k, hk1, hk2, hk3⟩ := ihB b hb
            rw [hout, hk3] at hEqLab
            have := labelOf_inj hEqLab
            omega

theorem compileOverlays_labels :
    ∀ (os : List TextOverlay) (nEff i : Nat) (cur : String),
      (∀ st ∈ (compileOverlays nEff i cur os).1,
        ∃ j, i ≤ j ∧ j < i + os.length ∧ st.outLabel = labelOf (j + nEff)) ∧
      List.Pairwise (fun a b : Stage => a.outLabel ≠ b.outLabel) (compileOverlays nEff i cur os).1 := by
  intro os
  induction os with
  | nil => intro nEff i cur; simp [compileOverlays]
  | cons o os ih =>
    intro nEff i cur
    obtain ⟨ihB, ihP⟩ := ih nEff (i + 1) (labelOf (i + nEff))
    unfold compileOverlays
    constructor
    · intro st hmem
      rcases List.mem_cons.mp hmem with hEq | hIn
      · subst hEq
        exact ⟨i, le_refl i, by simp only [List.length_cons]; omega, rfl⟩
      · obtain ⟨j, hj1, hj2, hj3⟩ := ihB st hIn
        exact ⟨j, by omega, by simp only [List.length_cons]; omega, hj3⟩
    · refine List.Pairwise.cons ?_ ihP
      intro b hb hEqLab
      obtain ⟨j, hj1, hj2, hj3⟩ := ihB b hb
      rw [hj3] at hEqLab
      have := labelOf_inj hEqLab
      omega

/-! ### Error characterisation of the compiler -/

theorem procEffect_isErr (i : Nat) (cur : String) (e : VideoEffect) :
    isErr (procEffect i cur e) = speedAborts e := by
  unfold procEffect speedAborts
  by_cases hf : e.type = "filter"
  · have hns : (e.type == "speed") = false := by rw [hf]; decide
    simp only [hf, if_true, hns, Bool.false_and]
    cases lookupFilter e.value <;> rfl
  · by_cases hs : e.type = "speed"
    · have hys : (e.type == "speed") = true := by rw [hs]; decide
      simp only [hf, if_false, hs, if_true, hys, Bool.true_and]
      cases hv : floatOfValue e.value with
      | none => rfl
      | some q =>
        by_cases h1 : PyF.eqv q pyFOne
        · simp [h1, isErr]
        · by_cases h0 : PyF.eqv q pyFZero
          · simp [h1, h0, isErr]
          · simp [h1, h0, isErr]
    · have hns : (e.type == "speed") = false := by
        rw [Bool.eq_false_iff]
        intro hc
        exact hs (by simpa using hc)
      simp only [hf, if_false, hs, hns, Bool.false_and]
      rfl

theorem compileEffects_isErr :
    ∀ (es : List VideoEffect) (i : Nat) (cur : String),
      isErr (compileEffects i cur es) = es.any speedAborts := by
  intro es
  induction es with
  | nil => intro i cur; rfl
  | cons e es ih =>
    intro i cur
    rw [compileEffects_cons, List.any_cons]
    cases hp : procEffect i cur e with
    | error m =>
      have hye := procEffect_isErr i cur e
      rw [hp] at hye
      simp only [hp]
      rw [← hye]
      simp [isErr]
    | ok pr =>
      obtain ⟨st?, cur2⟩ := pr
      have hno : speedAborts e = false := by
        have hye := procEffect_isErr i cur e
        rw [hp] at hye
        exact hye.symm
      simp only [hp]
      rw [hno, Bool.false_or]
      cases hr : compileEffects (i + 1) cur2 es with
      | error m =>
        have hih := ih (i + 1) cur2
        rw [hr] at hih
        simp only [hr]
        exact hih
      | ok pr2 =>
        obtain ⟨sts2, c2⟩ := pr2
        have hih := ih (i + 1) cur2
        rw [hr] at hih
        simp only [hr]
        exact hih

theorem compileStages_isErr (es : List VideoEffect) (os : List TextOverlay) :
    isErr (compileStages es os) = es.any speedAborts := by
  unfold compileStages
  rw [← compileEffects_isErr es 0 "[0:v]"]
  cases compileEffects 0 "[0:v]" es with
  | error m => rfl
  | ok pr => obtain ⟨a, b⟩ := pr; rfl

theorem compileExportCmd_isErr (src dst q fmt : String)
    (es : List VideoEffect) (os : List TextOverlay) :
    isErr (compileExportCmd src dst q fmt es os) = es.any speedAborts := by
  unfold compileExportCmd compileEntries
  rw [← compileStages_isErr es os]
  cases compileStages es os with
  | error m => rfl
  | ok sts => rfl

/-! ### Status endpoint lemmas -/

theorem str_append_assoc (a b c : String) : a ++ b ++ c = a ++ (b ++ c) := by
  apply String.ext
  simp [String.data_append, List.append_assoc]

theorem append_dot_mp4 (id : String) : id ++ "." ++ "mp4" = id ++ ".mp4" := by
  rw [str_append_assoc]
  rfl

theorem ges_no_files (id : String) : get_export_status ⟨[], []⟩ id = StatusR.not_found := by
  simp [get_export_status, List.lookup]

theorem ges_marker_only (id c : String) :
    get_export_status ⟨[], [(id ++ "_progress.txt", c)]⟩ id = StatusR.processing (pyStrip c) := by
  simp [get_export_status, List.lookup]

theorem ges_mp4_artifact (id : String) (pf : List (String × String)) :
    get_export_status ⟨[id ++ "." ++ "mp4"], pf⟩ id =
      StatusR.completed ("/api/exports/" ++ id ++ "/download") := by
  simp [get_export_status, append_dot_mp4]

theorem statusTrace_success_mp4 (id : String) :
    statusTrace (traceSuccess id "mp4") id =
      [StatusR.not_found, StatusR.processing (pyStrip "0%"),
       StatusR.processing (pyStrip "Starting export..."),
       StatusR.processing (pyStrip "Processing..."),
       StatusR.completed ("/api/exports/" ++ id ++ "/download"),
       StatusR.completed ("/api/exports/" ++ id ++ "/download")] := by
  simp only [statusTrace, traceSuccess, List.map_cons, List.map_nil,
    ges_no_files, ges_marker_only, ges_mp4_artifact]

theorem statusTrace_failure (id err : String) :
    statusTrace (traceFailure id err) id =
      [StatusR.not_found, StatusR.processing (pyStrip "0%"),
       StatusR.processing (pyStrip "Starting export..."),
       StatusR.processing (pyStrip "Processing..."),
       StatusR.processing (pyStrip ("Error: " ++ err))] := by
  simp only [statusTrace, traceFailure, List.map_cons, List.map_nil,
    ges_no_files, ges_marker_only]

theorem monotone_success_mp4 (id : String) :
    MonotoneSt (statusTrace (traceSuccess id "mp4") id) := by
  rw [statusTrace_success_mp4]
  simp [MonotoneSt, List.pairwise_cons, statusRank]

theorem monotone_failure (id err : String) :
    MonotoneSt (statusTrace (traceFailure id err)  id) := by
  rw [statusTrace_failure]
  simp [MonotoneSt, List.pairwise_cons, statusRank]

/-! ### Artifact-probe lemma for the download endpoint -/

theorem probe_single_ne {eid a fmt : String} (h : a ≠ fmt) :
    (eid ++ "." ++ a) ∉ ([eid ++ "." ++ fmt] : List String) := by
  intro hm
  rw [List.mem_singleton] at hm
  exact h (str_append_left_cancel hm)

/-! ### Claims -/

/-- C1: the claim states that the final-stage rewrite drops only the
trailing output label, preserving the input label and filter body.  The
code `filter_complex[-1].split("]")[0] + "]"` instead keeps only the text
before the FIRST `]` — the last entry collapses to its input label alone.
Evaluating the embedded compiler on a one-effect timeline: the entry
`[0:v]colorchannelmixer=...[v0]` is rewritten to `[0:v]`, not to the
claimed `[0:v]colorchannelmixer=...`. -/
theorem c1_final_rewrite_drops_body :
    compileEntries [⟨"filter", EValue.vstr "grayscale"⟩] [] = Except.ok ["[0:v]"] ∧
    ("[0:v]" : String) ≠ "[0:v]" ++ "colorchannelmixer=.3:.4:.3:0:.3:.4:.3:0:.3:.4:.3" := by
  constructor
  · decide
  · decide

/-- C2 (counterexample): after a successful render of a `webm`-format
export the artifact `e1.webm` exists and the marker is gone, yet the
status endpoint — which probes only `{id}.mp4` — reports `not_found`
rather than the claimed `completed`. -/
theorem c2_counterexample :
    get_export_status (successFS "e1" "webm") "e1" = StatusR.not_found := by decide

/-- C2 (amended): for an mp4-format export, presence of the artifact at
its expected path is authoritative: whatever the progress-marker state,
the status is `completed` with the download reference. -/
theorem c2_mp4_artifact_completes (fs : FS) (id : String)
    (h : (id ++ ".mp4") ∈ fs.exportsFiles) :
    get_export_status fs id = StatusR.completed ("/api/exports/" ++ id ++ "/download") := by
  simp [get_export_status, h]

theorem c2_witness :
    get_export_status (successFS "e1" "mp4") "e1" =
      StatusR.completed ("/api/exports/" ++ "e1" ++ "/download") :=
  c2_mp4_artifact_completes (successFS "e1" "mp4") "e1" (by decide)

/-- C3 (counterexample): a poller of a successful `webm`-format job
observes `processing` (poll at the renderer-running state) followed by
`not_found` (poll after the marker is unlinked: no `.mp4` artifact ever
appears), so the observed status sequence of this job regresses. -/
theorem c3_counterexample :
    (statusTrace (traceSuccess "e1" "webm") "e1")[3]? =
      some (StatusR.processing "Processing...") ∧
    (statusTrace (traceSuccess "e1" "webm") "e1")[5]? = some StatusR.not_found ∧
    ¬ MonotoneSt (statusTrace (traceSuccess "e1" "webm") "e1") := by decide

/-- C3 (amended): for mp4-format jobs every poll sequence (a sublist of
the lifecycle's status trace) is monotone in the order
`not_found ≤ processing ≤ completed`, with no regression, for both the
success and the failure lifecycle. -/
theorem c3_mp4_polls_monotone (id err : String) (pollsS pollsF : List StatusR)
    (h1 : pollsS.Sublist (statusTrace (traceSuccess id "mp4") id))
    (h2 : pollsF.Sublist (statusTrace (traceFailure id err) id)) :
    MonotoneSt pollsS ∧ MonotoneSt pollsF :=
  ⟨(monotone_success_mp4 id).sublist h1, (monotone_failure id err).sublist h2⟩

theorem c3_witness :
    MonotoneSt (statusTrace (traceSuccess "e1" "mp4") "e1") ∧
    MonotoneSt (statusTrace (traceFailure "e1" "boom") "e1") :=
  c3_mp4_polls_monotone "e1" "boom" _ _ (List.Sublist.refl _) (List.Sublist.refl _)

/-- C4 (counterexample): a text overlay whose start/end times (-5, 20)
lie outside the project duration `[0, 10]` does NOT make compilation
fail — the compiler never consults the duration and emits the command. -/
theorem c4_counterexample :
    isErr (compileExportCmd "src.mp4" "out.mp4" "medium" "mp4" []
      [⟨"Late", ⟨10, 1⟩, ⟨10, 1⟩, 24, "#FFFFFF", ⟨-5, 1⟩, ⟨20, 1⟩⟩]) = false := by decide

/-- C4 (amended): compilation fails exactly when some effect is
speed-kind and its value either fails float conversion (`ValueError`) or
converts to a value that passes the `!= 1.0` guard and is zero
(`ZeroDivisionError`); overlay times are never validated. -/
theorem c4_compile_fails_iff_bad_speed (src dst q fmt : String)
    (es : List VideoEffect) (os : List TextOverlay) :
    isErr (compileExportCmd src dst q fmt es os) = es.any speedAborts :=
  compileExportCmd_isErr src dst q fmt es os

/-- C5: a filter-kind effect whose value is not in the catalog emits no
stage and does not abort: the loop continues on the remaining effects
with the same current handle and the next index.  In particular the
effect list [unknown "foo", known "grayscale"] compiles to exactly one
stage — the grayscale one (labelled `[v1]`, its loop index). -/
theorem c5_unknown_filter_skipped :
    (∀ (i : Nat) (cur : String) (e : VideoEffect) (es : List VideoEffect),
      e.type = "filter" → lookupFilter e.value = none →
      compileEffects i cur (e :: es) = compileEffects (i + 1) cur es) ∧
    compileStages [⟨"filter", EValue.vstr "foo"⟩, ⟨"filter", EValue.vstr "grayscale"⟩] [] =
      Except.ok [⟨"[0:v]", "colorchannelmixer=.3:.4:.3:0:.3:.4:.3:0:.3:.4:.3", "[v1]"⟩] := by
  constructor
  · intro i cur e es h1 h2
    have hred : compileEffects i cur (e :: es) =
        match compileEffects (i + 1) cur es with
        | Except.error m => Except.error m
        | Except.ok (sts, curF) => Except.ok (sts, curF) := by
      rw [compileEffects_cons, procEffect_unknown_filter h1 h2]
      rfl
    rw [hred]
    cases hr : compileEffects (i + 1) cur es with
    | error m => rfl
    | ok pr => obtain ⟨sts, c⟩ := pr; rfl
  · decide

theorem c5_witness :
    compileEffects 0 "[0:v]" [⟨"filter", EValue.vstr "foo"⟩, ⟨"filter", EValue.vstr "grayscale"⟩] =
      compileEffects 1 "[0:v]" [⟨"filter", EValue.vstr "grayscale"⟩] :=
  c5_unknown_filter_skipped.1 0 "[0:v]" ⟨"filter", EValue.vstr "foo"⟩
    [⟨"filter", EValue.vstr "grayscale"⟩] rfl (by decide)

/-- C6: the chained replaces of the source escape each `:` to `\:` and
each `'` to `\'` (equal to the one-pass characterwise escaping the spec
describes), and the overlay text `a:b'c` yields the embedded stage text
`a\:b\'c` inside the full drawtext stage. -/
theorem c6_escaping :
    (∀ s : String, escapeText s = specEscape s) ∧
    escapeText ("a:b" ++ quoteStr ++ "c") = "a\\:b\\" ++ quoteStr ++ "c" ∧
    textFilterOf ⟨"a:b" ++ quoteStr ++ "c", ⟨10, 1⟩, ⟨10, 1⟩, 24, "#FFFFFF", ⟨0, 1⟩, ⟨5, 1⟩⟩ =
      "drawtext=text=" ++ quoteStr ++ ("a\\:b\\" ++ quoteStr ++ "c") ++ quoteStr ++
        ":x=10.0*W/100:y=10.0*W/100:fontsize=24:fontcolor=#FFFFFF:enable=" ++
        quoteStr ++ "between(t,0.0,5.0)" ++ quoteStr :=
  ⟨escapeText_eq_specEscape, by decide, by decide⟩

/-- C7 (counterexample): a speed multiplier of `0.0` is `!= 1.0` yet
emits no time-remap stage — the source raises `ZeroDivisionError` in
`1.0 / speed`, aborting the compilation, refuting the claim for m = 0. -/
theorem c7_counterexample :
    procEffect 0 "[0:v]" ⟨"speed", EValue.vnum ⟨0, 1⟩⟩ =
      Except.error "float division by zero" := by decide

/-- C7 (amended): for a speed-kind effect with converted multiplier `m`:
`m == 1.0` emits no stage; `m != 1.0` and nonzero emits exactly one
time-remap stage whose factor is `1/m`; `m == 0` aborts with a division
error.  The factor for `m = 2.0` renders as `0.5`. -/
theorem c7_speed_stage (i : Nat) (cur : String) (e : VideoEffect) (m : PyF)
    (h1 : e.type = "speed") (h2 : floatOfValue e.value = some m) :
    (PyF.eqv m pyFOne = true → procEffect i cur e = Except.ok (none, cur)) ∧
    (PyF.eqv m pyFOne = false → PyF.eqv m pyFZero = false →
      procEffect i cur e =
        Except.ok (some ⟨cur, "setpts=" ++ (PyF.div pyFOne m).toStr ++ "*PTS", labelOf i⟩,
          labelOf i)) ∧
    (PyF.eqv m pyFOne = false → PyF.eqv m pyFZero = true →
      procEffect i cur e = Except.error "float division by zero") ∧
    (PyF.div pyFOne ⟨2, 1⟩).toStr = "0.5" := by
  have hnf : ¬ e.type = "filter" := by rw [h1]; decide
  refine ⟨?_, ?_, ?_, by decide⟩
  · intro hone
    simp [procEffect, hnf, h1, h2, hone]
  · intro hone hzero
    simp [procEffect, hnf, h1, h2, hone, hzero]
  · intro hone hzero
    simp [procEffect, hnf, h1, h2, hone, hzero]

theorem c7_witness :
    procEffect 0 "[0:v]" ⟨"speed", EValue.vnum ⟨2, 1⟩⟩ =
      Except.ok (some ⟨"[0:v]", "setpts=" ++ (PyF.div pyFOne ⟨2, 1⟩).toStr ++ "*PTS", labelOf 0⟩,
        labelOf 0) :=
  (c7_speed_stage 0 "[0:v]" ⟨"speed", EValue.vnum ⟨2, 1⟩⟩ ⟨2, 1⟩ rfl rfl).2.1
    (by decide) (by decide)

/-- C8: all output labels of a compiled filter graph are pairwise
distinct, and every label is `[v{k}]` for a loop index
`k < len(effects) + len(overlays)` (effect stages use their own index,
overlay stages their index offset by the effect count). -/
theorem c8_labels_distinct (es : List VideoEffect) (os : List TextOverlay) (sts : List Stage)
    (h : compileStages es os = Except.ok sts) :
    List.Pairwise (fun a b : String => a ≠ b) (sts.map Stage.outLabel) ∧
    ∀ st ∈ sts, ∃ k, k < es.length + os.length ∧ st.outLabel = labelOf k := by
  unfold compileStages at h
  cases he : compileEffects 0 "[0:v]" es with
  | error m => simp only [he] at h; cases h
  | ok pr =>
    obtain ⟨effSts, cur⟩ := pr
    simp only [he, Except.ok.injEq] at h
    subst h
    obtain ⟨effB, effP⟩ := compileEffects_labels es 0 "[0:v]" effSts cur he
    obtain ⟨ovB, ovP⟩ := compileOverlays_labels os es.length 0 cur
    constructor
    · rw [List.pairwise_map, List.pairwise_append]
      refine ⟨effP, ovP, ?_⟩
      intro a ha b hb
      obtain ⟨k, hk1, hk2, hk3⟩ := effB a ha
      obtain ⟨j, hj1, hj2, hj3⟩ := ovB b hb
      rw [hk3, hj3]
      intro hEq
      have := labelOf_inj hEq
      omega
    · intro st hmem
      rcases List.mem_append.mp hmem with hIn | hIn
      · obtain ⟨k, hk1, hk2, hk3⟩ := effB st hIn
        exact ⟨k, by omega, hk3⟩
      · obtain ⟨j, hj1, hj2, hj3⟩ := ovB st hIn
        exact ⟨j + es.length, by omega, hj3⟩

theorem c8_witness :
    List.Pairwise (fun a b : String => a ≠ b)
      ((okStages (compileStages
          [⟨"filter", EValue.vstr "grayscale"⟩, ⟨"speed", EValue.vnum ⟨2, 1⟩⟩]
          [⟨"Hi", ⟨10, 1⟩, ⟨10, 1⟩, 24, "#FFFFFF", ⟨0, 1⟩, ⟨5, 1⟩⟩])).map Stage.outLabel) :=
  (c8_labels_distinct
    [⟨"filter", EValue.vstr "grayscale"⟩, ⟨"speed", EValue.vnum ⟨2, 1⟩⟩]
    [⟨"Hi", ⟨10, 1⟩, ⟨10, 1⟩, 24, "#FFFFFF", ⟨0, 1⟩, ⟨5, 1⟩⟩]
    (okStages (compileStages
      [⟨"filter", EValue.vstr "grayscale"⟩, ⟨"speed", EValue.vnum ⟨2, 1⟩⟩]
      [⟨"Hi", ⟨10, 1⟩, ⟨10, 1⟩, 24, "#FFFFFF", ⟨0, 1⟩, ⟨5, 1⟩⟩]))
    (by decide)).1

/-- C9: an export submission for an unknown project id raises 404
"Project not found" before the export id is used, the destination is
derived, or any background task is scheduled: the embedded
`export_project` returns the error and hence neither a response nor a
scheduled `BackgroundTask`. -/
theorem c9_unknown_project (db : List (String × ProjectR)) (uploads : List String)
    (pid : String) (req : ExportRequest) (eid : String)
    (h : db.lookup pid = none) :
    export_project db uploads pid req eid = Except.error (404, "Project not found") := by
  simp [export_project, h]

theorem c9_witness :
    export_project [] [] "p1" ⟨"medium", "mp4", false⟩ "e1" =
      Except.error (404, "Project not found") :=
  c9_unknown_project [] [] "p1" ⟨"medium", "mp4", false⟩ "e1" (by decide)

/-- C10: the format string is never validated — submission with any
format outside {mp4, webm, mov} succeeds and the destination filename
uses it as extension, but the download endpoint, probing only the three
supported extensions, then 404s even though the artifact exists. -/
theorem c10_format_unvalidated (db : List (String × ProjectR)) (uploads : List String)
    (pid eid : String) (p : ProjectR) (req : ExportRequest)
    (h1 : db.lookup pid = some p) (h2 : p.video_file ≠ "") (h3 : p.video_file ∈ uploads)
    (h4 : req.format ∉ (["mp4", "webm", "mov"] : List String)) :
    export_project db uploads pid req eid =
      Except.ok ({ message := "Export started", export_id := eid, status := "processing",
                   download_url := "/api/exports/" ++ eid ++ "/download" },
                 { project_id := pid, source_file := p.video_file,
                   export_filename := eid ++ "." ++ req.format, request := req }) ∧
    download_export ⟨[eid ++ "." ++ req.format], []⟩ eid =
      Except.error (404, "Export not found") := by
  have hmp4 : req.format ≠ "mp4" := by intro he; exact h4 (by rw [he]; simp)
  have hwebm : req.format ≠ "webm" := by intro he; exact h4 (by rw [he]; simp)
  have hmov : req.format ≠ "mov" := by intro he; exact h4 (by rw [he]; simp)
  constructor
  · simp [export_project, h1, h2, h3]
  · simp only [download_export, findExport]
    rw [if_neg (probe_single_ne (Ne.symm hmp4)), if_neg (probe_single_ne (Ne.symm hwebm)),
      if_neg (probe_single_ne (Ne.symm hmov))]

theorem c10_witness :
    export_project [("p1", ⟨"vid.mp4"⟩)] ["vid.mp4"] "p1" ⟨"medium", "avi", false⟩ "e1" =
      Except.ok ({ message := "Export started", export_id := "e1", status := "processing",
                   download_url := "/api/exports/" ++ "e1" ++ "/download" },
                 { project_id := "p1", source_file := ProjectR.video_file ⟨"vid.mp4"⟩,
                   export_filename := "e1" ++ "." ++ ExportRequest.format ⟨"medium", "avi", false⟩,
                   request := ⟨"medium", "avi", false⟩ }) ∧
    download_export ⟨["e1" ++ "." ++ ExportRequest.format ⟨"medium", "avi", false⟩], []⟩ "e1" =
      Except.error (404, "Export not found") :=
  c10_format_unvalidated [("p1", ⟨"vid.mp4"⟩)] ["vid.mp4"] "p1" "e1" ⟨"vid.mp4"⟩
    ⟨"medium", "avi", false⟩ (by decide) (by decide) (by decide) (by decide)
